import Mathlib

/-!
Verification development for the wsl-terminal session multiplexer.

The definitions below are a shallow embedding of the Rust sources:
  - src-tauri/src/lib.rs        (session manager, output buffers, IPC slot)
  - src-tauri/src/mcp/server.rs (JSON-RPC tool front end)
  - src-tauri/src/mcp/types.rs  (wire types, ToolResult constructors)
  - src-tauri/src/mcp/tools.rs  (tool catalog)

Bytes are modelled as Nat, the two per-process hash maps as association
lists whose insert removes any previous binding of the key (so key sets
match HashMap semantics), and device or process failures as explicit
oracle parameters, since every failing call in the Rust code returns its
error before any state mutation.
-/

/-! ## Output buffer (lib.rs lines 59-60 and 224-249)

MAX_BUFFER_SIZE is the fixed capacity of a per-tab output buffer.
appendChunk is the body of the reader thread loop: extend the buffer
with the chunk just read, then drain the excess from the front when the
length exceeds the capacity.
-/

def MAX_BUFFER_SIZE : Nat := 100 * 1024

def appendChunk (buffer chunk : List Nat) : List Nat :=
  let grown := buffer ++ chunk
  if grown.length > MAX_BUFFER_SIZE then
    grown.drop (grown.length - MAX_BUFFER_SIZE)
  else
    grown

/-- Run a whole sequence of reader-thread appends on an initially empty
buffer, in order. -/
def runAppends (chunks : List (List Nat)) : List Nat :=
  chunks.foldl appendChunk []

/-! ## Registry and session state (lib.rs lines 62-66, 202-217, 254-319)

The processes map only matters through its key set (the values are pty
handles), so it is carried as a list of ids; insert removes any previous
occurrence of the id first, matching HashMap insert/remove key-set
semantics.  Output buffers keep their contents, as an association list.
-/

def regInsert (id : String) (reg : List String) : List String :=
  id :: reg.filter (fun x => x != id)

def regRemove (id : String) (reg : List String) : List String :=
  reg.filter (fun x => x != id)

def alookup {α : Type} (id : String) : List (String × α) → Option α
  | [] => none
  | p :: rest => if p.1 == id then some p.2 else alookup id rest

def bufInsert (id : String) (v : List Nat) (bufs : List (String × List Nat)) :
    List (String × List Nat) :=
  (id, v) :: bufs.filter (fun p => p.1 != id)

def bufRemove (id : String) (bufs : List (String × List Nat)) :
    List (String × List Nat) :=
  bufs.filter (fun p => p.1 != id)

/-- The reader thread appends a chunk to the buffer of its own tab only
when that entry still exists (buffers.get_mut in lib.rs line 236). -/
def bufAppend (id : String) (data : List Nat) (bufs : List (String × List Nat)) :
    List (String × List Nat) :=
  bufs.map (fun p => if p.1 == id then (p.1, appendChunk p.2 data) else p)

structure AppState where
  processes : List String
  output_buffers : List (String × List Nat)
deriving Repr

/-- kill_shell (lib.rs lines 297-306): remove the process entry and its
output buffer; always returns Ok. -/
def kill_shell (st : AppState) (tab_id : String) : AppState × Except String Unit :=
  ({ processes := regRemove tab_id st.processes,
     output_buffers := bufRemove tab_id st.output_buffers },
   Except.ok ())

/-- One session-lifecycle event.  spawn carries a flag telling whether
the pty allocation and process start succeeded; every failure exit of
spawn_shell happens before the maps are touched, so a failed spawn
leaves the state unchanged.  chunk is one reader-thread append. -/
inductive SessionOp where
  | spawn (id : String) (ok : Bool)
  | write (id : String) (data : List Nat)
  | resize (id : String) (cols rows : Nat)
  | chunk (id : String) (data : List Nat)
  | kill (id : String)

def stepOp (st : AppState) : SessionOp → AppState
  | .spawn id ok =>
      if ok then
        { processes := regInsert id st.processes,
          output_buffers := bufInsert id [] st.output_buffers }
      else st
  | .write _ _ => st
  | .resize _ _ _ => st
  | .chunk id data => { st with output_buffers := bufAppend id data st.output_buffers }
  | .kill id => (kill_shell st id).1

def runOps (ops : List SessionOp) : AppState :=
  ops.foldl stepOp { processes := [], output_buffers := [] }

/-- Whether, after a sequence of operations, the id has been
successfully spawned with no later kill. -/
def liveUpd (id : String) (b : Bool) : SessionOp → Bool
  | .spawn i ok => if i == id && ok then true else b
  | .kill i => if i == id then false else b
  | _ => b

def liveAfter (ops : List SessionOp) (id : String) : Bool :=
  ops.foldl (liveUpd id) false

/-! ## write_to_shell and resize_pty (lib.rs lines 254-295)

Device I/O results are oracle parameters: none means success, some e a
device failure with message e.  Each function returns its result value,
a flag telling whether any device I/O was attempted, and the (never
modified) processes map.
-/

def write_to_shell (processes : List String) (tab_id : String)
    (writeRes flushRes : Option String) :
    Except String Unit × Bool × List String :=
  if tab_id ∈ processes then
    match writeRes with
    | some e => (Except.error ("Write failed: " ++ e), true, processes)
    | none =>
      match flushRes with
      | some e => (Except.error ("Flush failed: " ++ e), true, processes)
      | none => (Except.ok (), true, processes)
  else
    (Except.ok (), false, processes)

def resize_pty (processes : List String) (tab_id : String)
    (resizeRes : Option String) :
    Except String Unit × Bool × List String :=
  if tab_id ∈ processes then
    match resizeRes with
    | some e => (Except.error ("Resize failed: " ++ e), true, processes)
    | none => (Except.ok (), true, processes)
  else
    (Except.ok (), false, processes)

/-! ## Lossy UTF-8 decoding (String::from_utf8_lossy)

get_shell_buffer (lib.rs lines 309-319) and the reader thread both pass
the raw bytes through String::from_utf8_lossy, which decodes UTF-8 and
replaces each maximal invalid subpart with U+FFFD (the WHATWG
"substitution of maximal subparts" rule that the Rust standard library
implements).  lossyCore is that decoder over byte lists.
-/

def replacementChar : Char := Char.ofNat 0xFFFD

def isCont (b : Nat) : Bool := 0x80 ≤ b && b ≤ 0xBF

/-- Lower bound for the second byte of a multi-byte sequence, given the
leading byte (excludes overlong encodings). -/
def contLo (b1 : Nat) : Nat :=
  if b1 = 0xE0 then 0xA0 else if b1 = 0xF0 then 0x90 else 0x80

/-- Upper bound for the second byte of a multi-byte sequence, given the
leading byte (excludes surrogates and values above U+10FFFF). -/
def contHi (b1 : Nat) : Nat :=
  if b1 = 0xED then 0x9F else if b1 = 0xF4 then 0x8F else 0xBF

def lossyCore : List Nat → List Char
  | [] => []
  | b1 :: rest =>
    if b1 < 0x80 then
      Char.ofNat b1 :: lossyCore rest
    else if b1 < 0xC2 then
      -- stray continuation byte or overlong two-byte lead (C0, C1)
      replacementChar :: lossyCore rest
    else if b1 ≤ 0xDF then
      match rest with
      | [] => [replacementChar]
      | b2 :: rest2 =>
        if isCont b2 then
          Char.ofNat ((b1 - 0xC0) * 0x40 + (b2 - 0x80)) :: lossyCore rest2
        else
          replacementChar :: lossyCore (b2 :: rest2)
    else if b1 ≤ 0xEF then
      match rest with
      | [] => [replacementChar]
      | b2 :: rest2 =>
        if contLo b1 ≤ b2 && b2 ≤ contHi b1 then
          match rest2 with
          | [] => [replacementChar]
          | b3 :: rest3 =>
            if isCont b3 then
              Char.ofNat (((b1 - 0xE0) * 0x40 + (b2 - 0x80)) * 0x40 + (b3 - 0x80))
                :: lossyCore rest3
            else
              replacementChar :: lossyCore (b3 :: rest3)
        else
          replacementChar :: lossyCore (b2 :: rest2)
    else if b1 ≤ 0xF4 then
      match rest with
      | [] => [replacementChar]
      | b2 :: rest2 =>
        if contLo b1 ≤ b2 && b2 ≤ contHi b1 then
          match rest2 with
          | [] => [replacementChar]
          | b3 :: rest3 =>
            if isCont b3 then
              match rest3 with
              | [] => [replacementChar]
              | b4 :: rest4 =>
                if isCont b4 then
                  Char.ofNat ((((b1 - 0xF0) * 0x40 + (b2 - 0x80)) * 0x40 + (b3 - 0x80))
                      * 0x40 + (b4 - 0x80)) :: lossyCore rest4
                else
                  replacementChar :: lossyCore (b4 :: rest4)
            else
              replacementChar :: lossyCore (b3 :: rest3)
        else
          replacementChar :: lossyCore (b2 :: rest2)
    else
      -- F5..FF can never start a valid sequence
      replacementChar :: lossyCore rest

def utf8Lossy (bytes : List Nat) : String :=
  String.mk (lossyCore bytes)

/-- UTF-8 encoding of one scalar value (what String stores per Char). -/
def charUtf8 (c : Char) : List Nat :=
  let n := c.toNat
  if n < 0x80 then [n]
  else if n < 0x800 then [0xC0 + n / 0x40, 0x80 + n % 0x40]
  else if n < 0x10000 then
    [0xE0 + n / 0x1000, 0x80 + (n / 0x40) % 0x40, 0x80 + n % 0x40]
  else
    [0xF0 + n / 0x40000, 0x80 + (n / 0x1000) % 0x40, 0x80 + (n / 0x40) % 0x40,
     0x80 + n % 0x40]

def encodeUtf8 (s : String) : List Nat :=
  (s.data.map charUtf8).flatten

/-- A byte list is valid UTF-8 when it is the encoding of some string. -/
def validUtf8 (bytes : List Nat) : Prop :=
  ∃ s : String, encodeUtf8 s = bytes

/-- get_shell_buffer (lib.rs lines 309-319): look the tab up in the
buffers map; decode its bytes lossily when present, return the empty
string when absent; never an error. -/
def get_shell_buffer (bufs : List (String × List Nat)) (tab_id : String) :
    Except String String :=
  match alookup tab_id bufs with
  | some buffer => Except.ok (utf8Lossy buffer)
  | none => Except.ok ""

/-! ## Pending control request slot (lib.rs lines 1650-1666)

The slot holds at most one reply channel; a channel is modelled by an
opaque Nat token.  ipc_response takes whatever channel is in the slot
(leaving it empty) and sends the response value into it; with an empty
slot nothing is delivered.  The command always returns Ok.
-/

def ipc_response {V : Type} (response : V) (slot : Option Nat) :
    Option Nat × Option (Nat × V) × Except String Unit :=
  match slot with
  | some tx => (none, some (tx, response), Except.ok ())
  | none => (none, none, Except.ok ())

/-! ## Shell command construction (lib.rs lines 136-184)

The match on the shell string inside spawn_shell, as a pure function
from shell kind, distro, initial_cwd and the USERPROFILE value to the
program, argument vector and working directory handed to the pty. -/

structure ShellCmd where
  program : String
  args : List String
  cwd : Option String
deriving Repr, DecidableEq

def wslCmd (distro : Option String) (initial_cwd : Option String) : ShellCmd :=
  { program := "wsl.exe"
    args :=
      (match distro with
       | some d => ["-d", d]
       | none => []) ++
      (match initial_cwd with
       | some cwd => ["--cd", cwd]
       | none => ["--cd", "~"])
    cwd := none }

def buildShellCommand (shell : String) (distro : Option String)
    (initial_cwd : Option String) (userprofile : String) : ShellCmd :=
  if shell = "wsl" then
    wslCmd distro initial_cwd
  else if shell = "powershell" then
    { program := "powershell.exe"
      args := ["-NoLogo", "-NoExit"]
      cwd := some (initial_cwd.getD userprofile) }
  else if shell = "cmd" then
    { program := "cmd.exe"
      args := []
      cwd := some (initial_cwd.getD userprofile) }
  else
    wslCmd distro initial_cwd

/-! ## JSON values (serde_json::Value) -/

inductive Json where
  | null
  | bool (b : Bool)
  | num (n : Int)
  | str (s : String)
  | arr (elems : List Json)
  | obj (fields : List (String × Json))

def jlookup (key : String) : List (String × Json) → Option Json
  | [] => none
  | f :: rest => if f.1 == key then some f.2 else jlookup key rest

/-- Value::get(key) followed by as_str, with a fallback, as the tool
functions use it on the reply object. -/
def getStrField (j : Json) (key : String) (fallback : String) : String :=
  match j with
  | .obj fields =>
    match jlookup key fields with
    | some (.str s) => s
    | _ => fallback
  | _ => fallback

/-! ## JSON-RPC wire types (mcp/types.rs) -/

structure JsonRpcRequest where
  jsonrpc : String
  id : Option Json
  method : String
  params : Json

structure JsonRpcErrorBody where
  code : Int
  message : String

structure JsonRpcResponse where
  id : Option Json
  result : Option Json
  error : Option JsonRpcErrorBody

def JsonRpcResponse.success (id : Option Json) (result : Json) : JsonRpcResponse :=
  { id := id, result := some result, error := none }

/-- JsonRpcResponse::error in types.rs (named mkError here because the
structure already has a field called error). -/
def JsonRpcResponse.mkError (id : Option Json) (code : Int) (message : String) :
    JsonRpcResponse :=
  { id := id, result := none, error := some { code := code, message := message } }

inductive ContentBlock where
  | text (text : String)

structure ToolResult where
  content : List ContentBlock
  is_error : Option Bool

def ToolResult.text (s : String) : ToolResult :=
  { content := [ContentBlock.text s], is_error := none }

def ToolResult.error (message : String) : ToolResult :=
  { content := [ContentBlock.text message], is_error := some true }

def contentBlockToJson : ContentBlock → Json
  | .text t => .obj [("type", .str "text"), ("text", .str t)]

/-- serde serialization of a ToolResult (isError is skipped when none). -/
def toolResultToJson (r : ToolResult) : Json :=
  .obj ([("content", .arr (r.content.map contentBlockToJson))] ++
    (match r.is_error with
     | some b => [("isError", .bool b)]
     | none => []))

/-! ## Tool call parameter structs (mcp/types.rs lines 94-231)

Each struct is deserialized by serde from a JSON object: required
fields must be present with the right type, fields with a serde default
fall back to it when absent, and Option fields deserialize null or
absence to none.  Anything that is not a JSON object is rejected.
-/

structure CallToolParams where
  name : String
  arguments : Json

structure OpenTabParams where
  shell : String
  distro : Option String
  cwd : Option String
  title : Option String

structure CloseTabParams where
  tab_id : String

structure FocusTabParams where
  tab_id : String

structure RunCommandParams where
  tab_id : String
  command : String
  wait_for_output : Bool
  timeout_ms : Nat

structure GetOutputParams where
  tab_id : String
  lines : Nat

structure SetThemeParams where
  theme : String

structure AddSshParams where
  name : String
  host : String
  port : Nat
  user : String

structure RemoveSshParams where
  id : String

structure ConnectSshParams where
  id : String

def reqStr (fields : List (String × Json)) (key : String) : Except String String :=
  match jlookup key fields with
  | some (.str s) => Except.ok s
  | some _ => Except.error ("invalid type for field " ++ key)
  | none => Except.error ("missing field " ++ key)

def strFieldD (fields : List (String × Json)) (key : String) (d : String) :
    Except String String :=
  match jlookup key fields with
  | some (.str s) => Except.ok s
  | some _ => Except.error ("invalid type for field " ++ key)
  | none => Except.ok d

def optStr (fields : List (String × Json)) (key : String) :
    Except String (Option String) :=
  match jlookup key fields with
  | some (.str s) => Except.ok (some s)
  | some .null => Except.ok none
  | some _ => Except.error ("invalid type for field " ++ key)
  | none => Except.ok none

def boolFieldD (fields : List (String × Json)) (key : String) (d : Bool) :
    Except String Bool :=
  match jlookup key fields with
  | some (.bool b) => Except.ok b
  | some _ => Except.error ("invalid type for field " ++ key)
  | none => Except.ok d

/-- Unsigned integer field with a serde default and the exclusive upper
bound of its Rust integer type. -/
def natFieldD (fields : List (String × Json)) (key : String) (d : Nat) (hi : Nat) :
    Except String Nat :=
  match jlookup key fields with
  | some (.num n) =>
    if 0 ≤ n ∧ n < (hi : Int) then Except.ok n.toNat
    else Except.error ("out of range field " ++ key)
  | some _ => Except.error ("invalid type for field " ++ key)
  | none => Except.ok d

def parseCallToolParams (j : Json) : Except String CallToolParams :=
  match j with
  | .obj fields => do
    let name ← reqStr fields "name"
    Except.ok { name := name, arguments := (jlookup "arguments" fields).getD Json.null }
  | _ => Except.error "invalid type: expected object for CallToolParams"

def parseOpenTabParams (j : Json) : Except String OpenTabParams :=
  match j with
  | .obj fields => do
    let shell ← strFieldD fields "shell" "wsl"
    let distro ← optStr fields "distro"
    let cwd ← optStr fields "cwd"
    let title ← optStr fields "title"
    Except.ok { shell := shell, distro := distro, cwd := cwd, title := title }
  | _ => Except.error "invalid type: expected object for OpenTabParams"

def parseCloseTabParams (j : Json) : Except String CloseTabParams :=
  match j with
  | .obj fields => do
    let tab_id ← reqStr fields "tab_id"
    Except.ok { tab_id := tab_id }
  | _ => Except.error "invalid type: expected object for CloseTabParams"

def parseFocusTabParams (j : Json) : Except String FocusTabParams :=
  match j with
  | .obj fields => do
    let tab_id ← reqStr fields "tab_id"
    Except.ok { tab_id := tab_id }
  | _ => Except.error "invalid type: expected object for FocusTabParams"

def parseRunCommandParams (j : Json) : Except String RunCommandParams :=
  match j with
  | .obj fields => do
    let tab_id ← reqStr fields "tab_id"
    let command ← reqStr fields "command"
    let wait ← boolFieldD fields "wait_for_output" false
    let timeout_ms ← natFieldD fields "timeout_ms" 5000 (2 ^ 64)
    Except.ok { tab_id := tab_id, command := command, wait_for_output := wait,
                timeout_ms := timeout_ms }
  | _ => Except.error "invalid type: expected object for RunCommandParams"

def parseGetOutputParams (j : Json) : Except String GetOutputParams :=
  match j with
  | .obj fields => do
    let tab_id ← reqStr fields "tab_id"
    let lines ← natFieldD fields "lines" 100 (2 ^ 64)
    Except.ok { tab_id := tab_id, lines := lines }
  | _ => Except.error "invalid type: expected object for GetOutputParams"

def parseSetThemeParams (j : Json) : Except String SetThemeParams :=
  match j with
  | .obj fields => do
    let theme ← reqStr fields "theme"
    Except.ok { theme := theme }
  | _ => Except.error "invalid type: expected object for SetThemeParams"

def parseAddSshParams (j : Json) : Except String AddSshParams :=
  match j with
  | .obj fields => do
    let name ← reqStr fields "name"
    let host ← reqStr fields "host"
    let port ← natFieldD fields "port" 22 (2 ^ 16)
    let user ← reqStr fields "user"
    Except.ok { name := name, host := host, port := port, user := user }
  | _ => Except.error "invalid type: expected object for AddSshParams"

def parseRemoveSshParams (j : Json) : Except String RemoveSshParams :=
  match j with
  | .obj fields => do
    let id ← reqStr fields "id"
    Except.ok { id := id }
  | _ => Except.error "invalid type: expected object for RemoveSshParams"

def parseConnectSshParams (j : Json) : Except String ConnectSshParams :=
  match j with
  | .obj fields => do
    let id ← reqStr fields "id"
    Except.ok { id := id }
  | _ => Except.error "invalid type: expected object for ConnectSshParams"

/-- Serialization back to JSON for the control-plane payload; fields
with skip_serializing_if stay out when none. -/
def optField (key : String) : Option String → List (String × Json)
  | some s => [(key, Json.str s)]
  | none => []

def openTabParamsToJson (p : OpenTabParams) : Json :=
  .obj ([("shell", .str p.shell)] ++ optField "distro" p.distro ++
    optField "cwd" p.cwd ++ optField "title" p.title)

def closeTabParamsToJson (p : CloseTabParams) : Json :=
  .obj [("tab_id", .str p.tab_id)]

def focusTabParamsToJson (p : FocusTabParams) : Json :=
  .obj [("tab_id", .str p.tab_id)]

def runCommandParamsToJson (p : RunCommandParams) : Json :=
  .obj [("tab_id", .str p.tab_id), ("command", .str p.command),
        ("wait_for_output", .bool p.wait_for_output),
        ("timeout_ms", .num (p.timeout_ms : Int))]

def getOutputParamsToJson (p : GetOutputParams) : Json :=
  .obj [("tab_id", .str p.tab_id), ("lines", .num (p.lines : Int))]

def setThemeParamsToJson (p : SetThemeParams) : Json :=
  .obj [("theme", .str p.theme)]

def addSshParamsToJson (p : AddSshParams) : Json :=
  .obj [("name", .str p.name), ("host", .str p.host),
        ("port", .num (p.port : Int)), ("user", .str p.user)]

def removeSshParamsToJson (p : RemoveSshParams) : Json :=
  .obj [("id", .str p.id)]

def connectSshParamsToJson (p : ConnectSshParams) : Json :=
  .obj [("id", .str p.id)]

/-! ## JSON serialization (stand-in for serde_json::to_string_pretty)

Three of the tool handlers print the whole reply object; this renderer
produces compact JSON (the pretty printer differs from it only in
whitespace, which no claim observes). -/

def escapeChar (c : Char) : String :=
  if c = '"' then "\\\"" else if c = '\\' then "\\\\" else String.singleton c

def escapeString (s : String) : String :=
  String.join (s.data.map escapeChar)

mutual

def renderJson : Json → String
  | .null => "null"
  | .bool true => "true"
  | .bool false => "false"
  | .num n => toString n
  | .str s => "\"" ++ escapeString s ++ "\""
  | .arr elems => "[" ++ renderJsonList elems ++ "]"
  | .obj fields => "\x7b" ++ renderJsonFields fields ++ "\x7d"

def renderJsonList : List Json → String
  | [] => ""
  | [x] => renderJson x
  | x :: y :: rest => renderJson x ++ "," ++ renderJsonList (y :: rest)

def renderJsonFields : List (String × Json) → String
  | [] => ""
  | [(k, v)] => "\"" ++ escapeString k ++ "\":" ++ renderJson v
  | (k, v) :: f :: rest =>
    "\"" ++ escapeString k ++ "\":" ++ renderJson v ++ "," ++ renderJsonFields (f :: rest)

end

/-! ## Tool handlers (mcp/server.rs lines 223-427)

send_to_app is the control-plane round trip (connect, one request line,
one reply line); it is passed in as an oracle because its result depends
on the UI process.  Except.error carries the transport failure text. -/

def SendFn : Type := String → Json → Except String Json

def apostrophe : String := String.singleton (Char.ofNat 39)

def tool_open_tab (send_to_app : SendFn) (args : Json) : ToolResult :=
  match parseOpenTabParams args with
  | .error e => ToolResult.error ("Invalid params: " ++ e)
  | .ok params =>
    match send_to_app "open_tab" (openTabParamsToJson params) with
    | .ok response =>
      ToolResult.text ("Opened new " ++ params.shell ++ " tab with ID: " ++
        getStrField response "tab_id" "unknown")
    | .error e => ToolResult.error e

def tool_close_tab (send_to_app : SendFn) (args : Json) : ToolResult :=
  match parseCloseTabParams args with
  | .error e => ToolResult.error ("Invalid params: " ++ e)
  | .ok params =>
    match send_to_app "close_tab" (closeTabParamsToJson params) with
    | .ok _ => ToolResult.text ("Closed tab: " ++ params.tab_id)
    | .error e => ToolResult.error e

def tool_focus_tab (send_to_app : SendFn) (args : Json) : ToolResult :=
  match parseFocusTabParams args with
  | .error e => ToolResult.error ("Invalid params: " ++ e)
  | .ok params =>
    match send_to_app "focus_tab" (focusTabParamsToJson params) with
    | .ok _ => ToolResult.text ("Focused tab: " ++ params.tab_id)
    | .error e => ToolResult.error e

def tool_get_tabs (send_to_app : SendFn) : ToolResult :=
  match send_to_app "get_tabs" (.obj []) with
  | .ok response => ToolResult.text (renderJson response)
  | .error e => ToolResult.error e

def tool_run_command (send_to_app : SendFn) (args : Json) : ToolResult :=
  match parseRunCommandParams args with
  | .error e => ToolResult.error ("Invalid params: " ++ e)
  | .ok params =>
    match send_to_app "run_command" (runCommandParamsToJson params) with
    | .ok response =>
      if params.wait_for_output then
        ToolResult.text (getStrField response "output" "")
      else
        ToolResult.text ("Command sent to tab: " ++ params.tab_id)
    | .error e => ToolResult.error e

def tool_get_output (send_to_app : SendFn) (args : Json) : ToolResult :=
  match parseGetOutputParams args with
  | .error e => ToolResult.error ("Invalid params: " ++ e)
  | .ok params =>
    match send_to_app "get_output" (getOutputParamsToJson params) with
    | .ok response => ToolResult.text (getStrField response "output" "")
    | .error e => ToolResult.error e

def tool_set_theme (send_to_app : SendFn) (args : Json) : ToolResult :=
  match parseSetThemeParams args with
  | .error e => ToolResult.error ("Invalid params: " ++ e)
  | .ok params =>
    match send_to_app "set_theme" (setThemeParamsToJson params) with
    | .ok _ => ToolResult.text ("Theme changed to: " ++ params.theme)
    | .error e => ToolResult.error e

def themesList : List String :=
  ["catppuccin-mocha", "dracula", "nord", "one-dark", "gruvbox-dark",
   "tokyo-night", "solarized-dark", "vs-code-dark", "monokai", "github-dark",
   "cyberpunk", "matrix", "synthwave", "vaporwave", "neon-tokyo",
   "hacker", "inferno", "toxic", "ultraviolet", "bloodmoon", "abyss",
   "rose-pine", "everforest", "kanagawa", "palenight", "material-ocean",
   "horizon", "andromeda", "moonlight", "night-owl", "poimandres", "vitesse-dark"]

def tool_get_themes : ToolResult :=
  ToolResult.text (String.intercalate "\n" themesList)

def tool_add_ssh (send_to_app : SendFn) (args : Json) : ToolResult :=
  match parseAddSshParams args with
  | .error e => ToolResult.error ("Invalid params: " ++ e)
  | .ok params =>
    match send_to_app "add_ssh" (addSshParamsToJson params) with
    | .ok response =>
      ToolResult.text ("Added SSH connection " ++ apostrophe ++ params.name ++
        apostrophe ++ " with ID: " ++ getStrField response "id" "unknown")
    | .error e => ToolResult.error e

def tool_remove_ssh (send_to_app : SendFn) (args : Json) : ToolResult :=
  match parseRemoveSshParams args with
  | .error e => ToolResult.error ("Invalid params: " ++ e)
  | .ok params =>
    match send_to_app "remove_ssh" (removeSshParamsToJson params) with
    | .ok _ => ToolResult.text ("Removed SSH connection: " ++ params.id)
    | .error e => ToolResult.error e

def tool_list_ssh (send_to_app : SendFn) : ToolResult :=
  match send_to_app "list_ssh" (.obj []) with
  | .ok response => ToolResult.text (renderJson response)
  | .error e => ToolResult.error e

def tool_connect_ssh (send_to_app : SendFn) (args : Json) : ToolResult :=
  match parseConnectSshParams args with
  | .error e => ToolResult.error ("Invalid params: " ++ e)
  | .ok params =>
    match send_to_app "connect_ssh" (connectSshParamsToJson params) with
    | .ok response =>
      ToolResult.text ("SSH connection opened in tab: " ++
        getStrField response "tab_id" "unknown")
    | .error e => ToolResult.error e

def tool_get_state (send_to_app : SendFn) : ToolResult :=
  match send_to_app "get_state" (.obj []) with
  | .ok response => ToolResult.text (renderJson response)
  | .error e => ToolResult.error e

def tool_show_window (send_to_app : SendFn) : ToolResult :=
  match send_to_app "show_window" (.obj []) with
  | .ok _ => ToolResult.text "Window shown"
  | .error e => ToolResult.error e

def tool_hide_window (send_to_app : SendFn) : ToolResult :=
  match send_to_app "hide_window" (.obj []) with
  | .ok _ => ToolResult.text "Window hidden"
  | .error e => ToolResult.error e

def tool_split_pane (send_to_app : SendFn) (args : Json) : ToolResult :=
  match send_to_app "split_pane" args with
  | .ok response =>
    ToolResult.text ("Pane split, new pane ID: " ++
      getStrField response "pane_id" "unknown")
  | .error e => ToolResult.error e

/-- Names of the tools in the static catalog (mcp/tools.rs). -/
def toolNames : List String :=
  ["open_tab", "close_tab", "focus_tab", "get_tabs", "run_command",
   "get_output", "set_theme", "get_themes", "add_ssh", "remove_ssh",
   "list_ssh", "connect_ssh", "get_state", "show_window", "hide_window",
   "split_pane"]

/-- execute_tool (mcp/server.rs lines 111-133). -/
def execute_tool (send_to_app : SendFn) (name : String) (args : Json) : ToolResult :=
  if name = "open_tab" then tool_open_tab send_to_app args
  else if name = "close_tab" then tool_close_tab send_to_app args
  else if name = "focus_tab" then tool_focus_tab send_to_app args
  else if name = "get_tabs" then tool_get_tabs send_to_app
  else if name = "run_command" then tool_run_command send_to_app args
  else if name = "get_output" then tool_get_output send_to_app args
  else if name = "set_theme" then tool_set_theme send_to_app args
  else if name = "get_themes" then tool_get_themes
  else if name = "add_ssh" then tool_add_ssh send_to_app args
  else if name = "remove_ssh" then tool_remove_ssh send_to_app args
  else if name = "list_ssh" then tool_list_ssh send_to_app
  else if name = "connect_ssh" then tool_connect_ssh send_to_app args
  else if name = "get_state" then tool_get_state send_to_app
  else if name = "show_window" then tool_show_window send_to_app
  else if name = "hide_window" then tool_hide_window send_to_app
  else if name = "split_pane" then tool_split_pane send_to_app args
  else ToolResult.error ("Unknown tool: " ++ name)

/-- handle_call_tool (mcp/server.rs lines 95-109): deserialize the
params envelope; on failure answer with JSON-RPC error -32602; on
success run the tool and wrap its result in a JSON-RPC success. -/
def handle_call_tool (send_to_app : SendFn) (request : JsonRpcRequest) :
    JsonRpcResponse :=
  match parseCallToolParams request.params with
  | .error e => JsonRpcResponse.mkError request.id (-32602) ("Invalid params: " ++ e)
  | .ok params =>
    JsonRpcResponse.success request.id
      (toolResultToJson (execute_tool send_to_app params.name params.arguments))

/-- A tools/call JSON-RPC request wrapping a tool name and arguments,
as the front end builds it on the wire. -/
def mkToolCallRequest (rid : Option Json) (name : String) (args : Json) :
    JsonRpcRequest :=
  { jsonrpc := "2.0", id := rid, method := "tools/call",
    params := Json.obj [("name", Json.str name), ("arguments", args)] }

/-! # Theorems -/

/-- The last MAX_BUFFER_SIZE bytes of a byte list (all of it when it is
short enough). -/
def suffixTrim (l : List Nat) : List Nat :=
  l.drop (l.length - MAX_BUFFER_SIZE)

theorem appendChunk_eq_suffixTrim (b c : List Nat) :
    appendChunk b c = suffixTrim (b ++ c) := by
  show (if (b ++ c).length > MAX_BUFFER_SIZE then
          (b ++ c).drop ((b ++ c).length - MAX_BUFFER_SIZE)
        else b ++ c) = (b ++ c).drop ((b ++ c).length - MAX_BUFFER_SIZE)
  by_cases h : (b ++ c).length > MAX_BUFFER_SIZE
  · rw [if_pos h]
  · rw [if_neg h, Nat.sub_eq_zero_of_le (Nat.le_of_not_lt h), List.drop_zero]

theorem suffixTrim_append_left (a c : List Nat) :
    suffixTrim (suffixTrim a ++ c) = suffixTrim (a ++ c) := by
  unfold suffixTrim
  have hkle : a.length - MAX_BUFFER_SIZE ≤ a.length := Nat.sub_le _ _
  have h1 : a.drop (a.length - MAX_BUFFER_SIZE) ++ c
      = (a ++ c).drop (a.length - MAX_BUFFER_SIZE) := by
    rw [List.drop_append_eq_append_drop, Nat.sub_eq_zero_of_le hkle, List.drop_zero]
  rw [h1, List.drop_drop]
  have h2 : (a.length - MAX_BUFFER_SIZE)
      + (((a ++ c).drop (a.length - MAX_BUFFER_SIZE)).length - MAX_BUFFER_SIZE)
      = (a ++ c).length - MAX_BUFFER_SIZE := by
    simp only [List.length_drop, List.length_append]
    omega
  rw [h2]

theorem runAppends_generalized (chunks : List (List Nat)) (a : List Nat) :
    chunks.foldl appendChunk (suffixTrim a) = suffixTrim (a ++ chunks.flatten) := by
  induction chunks generalizing a with
  | nil => rw [List.flatten_nil, List.append_nil, List.foldl_nil]
  | cons c cs ih =>
    rw [List.foldl_cons, List.flatten_cons, appendChunk_eq_suffixTrim,
      suffixTrim_append_left, ih, List.append_assoc]

/-- C1: after any sequence of reader-thread appends, the retained
buffer is never longer than MAX_BUFFER_SIZE, equals the most recent
MAX_BUFFER_SIZE bytes of everything appended so far byte for byte (all
of it while the total fits), and is exactly full once the total has
exceeded the capacity.  Quantifying over the whole sequence covers
every intermediate state, since any prefix is itself a sequence. -/
theorem outputBuffer_invariant (chunks : List (List Nat)) :
    (runAppends chunks).length ≤ MAX_BUFFER_SIZE
    ∧ runAppends chunks
        = chunks.flatten.drop (chunks.flatten.length - MAX_BUFFER_SIZE)
    ∧ (chunks.flatten.length > MAX_BUFFER_SIZE →
        (runAppends chunks).length = MAX_BUFFER_SIZE) := by
  have h : runAppends chunks = suffixTrim chunks.flatten := by
    have hg := runAppends_generalized chunks []
    rw [show suffixTrim ([] : List Nat) = [] from rfl, List.nil_append] at hg
    exact hg
  refine ⟨?_, h, ?_⟩
  · rw [h]
    unfold suffixTrim
    rw [List.length_drop]
    omega
  · intro hgt
    rw [h]
    unfold suffixTrim
    rw [List.length_drop]
    omega

theorem outputBuffer_invariant_witness :
    (List.replicate (MAX_BUFFER_SIZE + 1) 7).length > MAX_BUFFER_SIZE
    ∧ (runAppends [List.replicate (MAX_BUFFER_SIZE + 1) 7]).length
        = MAX_BUFFER_SIZE := by
  have hgt : ([List.replicate (MAX_BUFFER_SIZE + 1) 7] : List (List Nat)).flatten.length
      > MAX_BUFFER_SIZE := by
    rw [List.flatten_cons, List.flatten_nil, List.append_nil, List.length_replicate]
    omega
  refine ⟨by rw [List.length_replicate]; omega, ?_⟩
  exact (outputBuffer_invariant [List.replicate (MAX_BUFFER_SIZE + 1) 7]).2.2 hgt

theorem mem_processes_step (st : AppState) (op : SessionOp) (id : String) :
    (id ∈ (stepOp st op).processes)
    ↔ (liveUpd id (decide (id ∈ st.processes)) op = true) := by
  cases op with
  | spawn i ok =>
    cases ok with
    | true =>
      by_cases hik : i = id
      · subst hik
        simp [stepOp, liveUpd, regInsert]
      · simp [stepOp, liveUpd, regInsert, List.mem_filter, hik, bne_iff_ne, Ne.symm hik]
    | false => simp [stepOp, liveUpd]
  | kill i =>
    by_cases hik : i = id
    · subst hik
      simp [stepOp, kill_shell, liveUpd, regRemove, List.mem_filter]
    · simp [stepOp, kill_shell, liveUpd, regRemove, List.mem_filter, hik,
        bne_iff_ne, Ne.symm hik]
  | write i d => simp [stepOp, liveUpd]
  | resize i c r => simp [stepOp, liveUpd]
  | chunk i d => simp [stepOp, liveUpd]

theorem mem_processes_foldl (ops : List SessionOp) (st : AppState) (id : String) :
    (id ∈ (ops.foldl stepOp st).processes)
    ↔ (ops.foldl (liveUpd id) (decide (id ∈ st.processes)) = true) := by
  induction ops generalizing st with
  | nil => simp
  | cons op rest ih =>
    rw [List.foldl_cons, List.foldl_cons, ih]
    have hstep := mem_processes_step st op id
    have harg : decide (id ∈ (stepOp st op).processes)
        = liveUpd id (decide (id ∈ st.processes)) op := by
      cases hb : liveUpd id (decide (id ∈ st.processes)) op with
      | true =>
        rw [hb] at hstep
        exact decide_eq_true (hstep.mpr rfl)
      | false =>
        apply decide_eq_false
        intro hm
        have hcontra := hstep.mp hm
        rw [hb] at hcontra
        exact Bool.false_ne_true hcontra
    rw [harg]

/-- C2: starting from the empty state, after any sequence of session
operations the processes map contains exactly the ids whose last
successful spawn has no later kill; and none of write, resize, a reader
append or a failed spawn touches the processes map (insertion happens
only on a successful spawn, removal only on kill). -/
theorem registry_tracks_spawn_kill (ops : List SessionOp) (id : String) :
    (id ∈ (runOps ops).processes ↔ liveAfter ops id = true)
    ∧ (∀ st i d, (stepOp st (SessionOp.write i d)).processes = st.processes)
    ∧ (∀ st i c r, (stepOp st (SessionOp.resize i c r)).processes = st.processes)
    ∧ (∀ st i d, (stepOp st (SessionOp.chunk i d)).processes = st.processes)
    ∧ (∀ st i, (stepOp st (SessionOp.spawn i false)).processes = st.processes) := by
  refine ⟨?_, fun _ _ _ => rfl, fun _ _ _ _ => rfl, fun _ _ _ => rfl, fun _ _ => rfl⟩
  have h := mem_processes_foldl ops { processes := [], output_buffers := [] } id
  rw [show decide (id ∈ ({ processes := [], output_buffers := [] } : AppState).processes)
      = false from rfl] at h
  exact h

/-! ## Key-presence lemmas for the buffers map -/

theorem alookup_filter_ne {α : Type} (l : List (String × α)) (id i : String)
    (h : ¬ id = i) :
    alookup id (l.filter (fun p => p.1 != i)) = alookup id l := by
  induction l with
  | nil => rfl
  | cons p rest ih =>
    by_cases hp : p.1 = i
    · have hpb : (p.1 != i) = false := by simp [hp]
      have hpid : (p.1 == id) = false := by
        rw [beq_eq_false_iff_ne, hp]
        exact fun hcontra => h hcontra.symm
      rw [List.filter_cons, hpb]
      simp only [Bool.false_eq_true, if_false]
      rw [ih, alookup, hpid]
      simp only [Bool.false_eq_true, if_false]
    · have hpb : (p.1 != i) = true := by simp [hp]
      rw [List.filter_cons, hpb]
      simp only [if_true]
      rw [alookup, alookup, ih]

theorem alookup_filter_self {α : Type} (l : List (String × α)) (id : String) :
    alookup id (l.filter (fun p => p.1 != id)) = none := by
  induction l with
  | nil => rfl
  | cons p rest ih =>
    by_cases hp : p.1 = id
    · have hpb : (p.1 != id) = false := by simp [hp]
      rw [List.filter_cons, hpb]
      simp only [Bool.false_eq_true, if_false]
      exact ih
    · have hpb : (p.1 != id) = true := by simp [hp]
      have hpid : (p.1 == id) = false := by rw [beq_eq_false_iff_ne]; exact hp
      rw [List.filter_cons, hpb]
      simp only [if_true]
      rw [alookup, hpid]
      simp only [Bool.false_eq_true, if_false]
      exact ih

theorem alookup_bufAppend_isSome (bufs : List (String × List Nat)) (id i : String)
    (data : List Nat) :
    (alookup id (bufAppend i data bufs)).isSome = (alookup id bufs).isSome := by
  induction bufs with
  | nil => rfl
  | cons p rest ih =>
    rw [bufAppend, List.map_cons]
    by_cases hpi : p.1 = i
    · have hb : (p.1 == i) = true := by rw [beq_iff_eq]; exact hpi
      rw [if_pos hb]
      by_cases hq : p.1 = id
      · have hqb : (p.1 == id) = true := by rw [beq_iff_eq]; exact hq
        rw [alookup, alookup]
        simp only [hqb, if_true, Option.isSome_some]
      · have hqb : (p.1 == id) = false := by rw [beq_eq_false_iff_ne]; exact hq
        rw [alookup, alookup]
        simp only [hqb, Bool.false_eq_true, if_false]
        rw [← bufAppend]
        exact ih
    · have hb : (p.1 == i) = false := by rw [beq_eq_false_iff_ne]; exact hpi
      rw [if_neg (by rw [hb]; exact Bool.false_ne_true)]
      by_cases hq : p.1 = id
      · have hqb : (p.1 == id) = true := by rw [beq_iff_eq]; exact hq
        rw [alookup, alookup]
        simp only [hqb, if_true, Option.isSome_some]
      · have hqb : (p.1 == id) = false := by rw [beq_eq_false_iff_ne]; exact hq
        rw [alookup, alookup]
        simp only [hqb, Bool.false_eq_true, if_false]
        rw [← bufAppend]
        exact ih

theorem buf_isSome_step (st : AppState) (op : SessionOp) (id : String) :
    (alookup id (stepOp st op).output_buffers).isSome
    = liveUpd id (alookup id st.output_buffers).isSome op := by
  cases op with
  | spawn i ok =>
    cases ok with
    | true =>
      by_cases hik : i = id
      · subst hik
        rw [stepOp]
        simp only [if_true]
        rw [liveUpd]
        simp [bufInsert, alookup]
      · have hb : (i == id) = false := by rw [beq_eq_false_iff_ne]; exact hik
        rw [stepOp]
        simp only [if_true]
        rw [liveUpd, hb]
        simp only [Bool.false_and, Bool.false_eq_true, if_false]
        show (alookup id (bufInsert i [] st.output_buffers)).isSome = _
        rw [bufInsert, alookup, hb]
        simp only [Bool.false_eq_true, if_false]
        rw [alookup_filter_ne _ _ _ (fun hc => hik hc.symm)]
    | false =>
      rw [stepOp, liveUpd]
      simp
  | kill i =>
    by_cases hik : i = id
    · subst hik
      rw [stepOp, kill_shell, liveUpd]
      simp only [beq_self_eq_true, if_true]
      rw [bufRemove, alookup_filter_self]
      rfl
    · have hb : (i == id) = false := by rw [beq_eq_false_iff_ne]; exact hik
      rw [stepOp, kill_shell, liveUpd, hb]
      simp only [Bool.false_eq_true, if_false]
      rw [bufRemove, alookup_filter_ne _ _ _ (fun hc => hik hc.symm)]
  | write i d => rfl
  | resize i c r => rfl
  | chunk i d =>
    show (alookup id (bufAppend i d st.output_buffers)).isSome
      = (alookup id st.output_buffers).isSome
    exact alookup_bufAppend_isSome st.output_buffers id i d

theorem buf_isSome_foldl (ops : List SessionOp) (st : AppState) (id : String) :
    (alookup id (ops.foldl stepOp st).output_buffers).isSome
    = ops.foldl (liveUpd id) (alookup id st.output_buffers).isSome := by
  induction ops generalizing st with
  | nil => rfl
  | cons op rest ih =>
    rw [List.foldl_cons, List.foldl_cons, ih, buf_isSome_step]

/-- C5: for an id that is not live (never successfully spawned, or
killed since its last spawn), get_shell_buffer returns Ok with the
empty string: no entry exists for it, and the absent branch answers
the empty string rather than an error. -/
theorem read_buffer_unknown_empty (ops : List SessionOp) (id : String)
    (h : liveAfter ops id = false) :
    get_shell_buffer (runOps ops).output_buffers id = Except.ok "" := by
  have hkey : (alookup id (runOps ops).output_buffers).isSome = false := by
    have hf := buf_isSome_foldl ops { processes := [], output_buffers := [] } id
    rw [show (alookup id ({ processes := [], output_buffers := [] } : AppState).output_buffers).isSome
        = false from rfl] at hf
    rw [runOps, hf]
    exact h
  cases hl : alookup id (runOps ops).output_buffers with
  | some v => rw [hl] at hkey; exact absurd hkey (by simp)
  | none => rw [get_shell_buffer, hl]

theorem read_buffer_unknown_empty_witness :
    liveAfter [SessionOp.spawn "t1" true, SessionOp.kill "t1"] "t1" = false
    ∧ get_shell_buffer
        (runOps [SessionOp.spawn "t1" true, SessionOp.kill "t1"]).output_buffers "t1"
      = Except.ok "" :=
  ⟨by decide, read_buffer_unknown_empty _ _ (by decide)⟩

/-- C3: ipc_response leaves the slot empty in every case, delivers the
response to exactly the channel that was in the slot (nothing when it
was empty, so at most one consumer ever receives a given channel), and
always returns Ok. -/
theorem ipc_response_consumes_slot {V : Type} (response : V) (slot : Option Nat) :
    (ipc_response response slot).1 = none
    ∧ (ipc_response response slot).2.1 = slot.map (fun tx => (tx, response))
    ∧ (ipc_response response slot).2.2 = Except.ok () := by
  cases slot with
  | none => exact ⟨rfl, rfl, rfl⟩
  | some tx => exact ⟨rfl, rfl, rfl⟩

/-- C4: when the id is absent from the processes map, write_to_shell
and resize_pty return Ok, perform no device I/O and leave the map
untouched; and write_to_shell returns an error only when the id is
present and the device write or flush actually failed. -/
theorem missing_id_write_resize_noop (processes : List String) (tab_id : String)
    (writeRes flushRes resizeRes : Option String)
    (h : tab_id ∉ processes) :
    write_to_shell processes tab_id writeRes flushRes
      = (Except.ok (), false, processes)
    ∧ resize_pty processes tab_id resizeRes = (Except.ok (), false, processes)
    ∧ (∀ procs id w f e, (write_to_shell procs id w f).1 = Except.error e →
        id ∈ procs ∧ (w ≠ none ∨ f ≠ none)) := by
  refine ⟨by rw [write_to_shell.eq_def, if_neg h], by rw [resize_pty.eq_def, if_neg h], ?_⟩
  intro procs id w f e hw
  by_cases hm : id ∈ procs
  · refine ⟨hm, ?_⟩
    cases w with
    | some _ => exact Or.inl (by simp)
    | none =>
      cases f with
      | some _ => exact Or.inr (by simp)
      | none => simp [write_to_shell.eq_def, hm] at hw
  · simp [write_to_shell.eq_def, hm] at hw

theorem missing_id_write_resize_noop_witness :
    ("t1" ∉ (["t0"] : List String))
    ∧ write_to_shell ["t0"] "t1" none none = (Except.ok (), false, ["t0"]) := by
  have h : "t1" ∉ (["t0"] : List String) := by decide
  exact ⟨h, (missing_id_write_resize_noop ["t0"] "t1" none none none h).1⟩

/-- C8: any shell kind outside wsl, powershell and cmd builds exactly
the command that the kind wsl builds for the same distro and
initial_cwd: same program, same argument vector, same working
directory. -/
theorem unrecognized_shell_falls_back (shell : String)
    (distro initial_cwd : Option String) (userprofile : String)
    (h : shell ∉ (["wsl", "powershell", "cmd"] : List String)) :
    buildShellCommand shell distro initial_cwd userprofile
      = buildShellCommand "wsl" distro initial_cwd userprofile := by
  simp only [List.mem_cons, List.not_mem_nil, or_false, not_or] at h
  obtain ⟨h1, h2, h3⟩ := h
  rw [buildShellCommand, if_neg h1, if_neg h2, if_neg h3,
    buildShellCommand, if_pos rfl]

theorem unrecognized_shell_falls_back_witness :
    ("zsh" ∉ (["wsl", "powershell", "cmd"] : List String))
    ∧ buildShellCommand "zsh" (some "Ubuntu") none "C:\\Users\\Public"
        = buildShellCommand "wsl" (some "Ubuntu") none "C:\\Users\\Public" := by
  have h : "zsh" ∉ (["wsl", "powershell", "cmd"] : List String) := by decide
  exact ⟨h, unrecognized_shell_falls_back "zsh" (some "Ubuntu") none "C:\\Users\\Public" h⟩

theorem filter_self_idem {α : Type} (p : α → Bool) (l : List α) :
    (l.filter p).filter p = l.filter p := by
  induction l with
  | nil => rfl
  | cons a rest ih =>
    by_cases h : p a <;> simp [List.filter_cons, h, ih]

/-- C9: kill_shell always answers Ok, removes both the process entry
and the output buffer of the id, and running it a second time from the
state it produced returns exactly the same state and the same Ok
result (idempotence, for every starting state including one where the
id was never present). -/
theorem kill_shell_idempotent (st : AppState) (tab_id : String) :
    kill_shell (kill_shell st tab_id).1 tab_id = kill_shell st tab_id
    ∧ (kill_shell st tab_id).2 = Except.ok ()
    ∧ tab_id ∉ (kill_shell st tab_id).1.processes
    ∧ alookup tab_id (kill_shell st tab_id).1.output_buffers = none := by
  refine ⟨?_, rfl, ?_, ?_⟩
  · have h1 : regRemove tab_id (regRemove tab_id st.processes)
        = regRemove tab_id st.processes := filter_self_idem _ _
    have h2 : bufRemove tab_id (bufRemove tab_id st.output_buffers)
        = bufRemove tab_id st.output_buffers := filter_self_idem _ _
    show (({ processes := regRemove tab_id (regRemove tab_id st.processes),
             output_buffers := bufRemove tab_id (bufRemove tab_id st.output_buffers) } : AppState),
          (Except.ok () : Except String Unit))
        = (({ processes := regRemove tab_id st.processes,
              output_buffers := bufRemove tab_id st.output_buffers } : AppState),
           (Except.ok () : Except String Unit))
    rw [h1, h2]
  · intro hmem
    have hmem2 : tab_id ∈ st.processes.filter (fun x => x != tab_id) := hmem
    have hne := (List.mem_filter.mp hmem2).2
    rw [bne_self_eq_false] at hne
    exact Bool.false_ne_true hne
  · exact alookup_filter_self st.output_buffers tab_id

/-- C10: get_shell_buffer returns the lossy UTF-8 decoding of the
stored bytes when the id has a buffer, that decoding round-trips to
the stored bytes only when they are valid UTF-8, and on the invalid
byte 0xFF it returns the replacement character whose encoding differs
from the stored byte (so the snapshot is not the raw bytes). -/
theorem read_buffer_lossy_decode (bufs : List (String × List Nat)) (id : String)
    (buffer : List Nat) (h : alookup id bufs = some buffer) :
    get_shell_buffer bufs id = Except.ok (utf8Lossy buffer)
    ∧ (encodeUtf8 (utf8Lossy buffer) = buffer → validUtf8 buffer)
    ∧ utf8Lossy [0xFF] = String.mk [replacementChar]
    ∧ encodeUtf8 (utf8Lossy [0xFF]) ≠ [0xFF] := by
  refine ⟨?_, fun he => ⟨utf8Lossy buffer, he⟩, by decide, by decide⟩
  rw [get_shell_buffer, h]

theorem read_buffer_lossy_decode_witness :
    alookup "t1" [("t1", [0xFF])] = some [0xFF]
    ∧ get_shell_buffer [("t1", [0xFF])] "t1" = Except.ok (utf8Lossy [0xFF]) :=
  ⟨rfl, (read_buffer_lossy_decode [("t1", [0xFF])] "t1" [0xFF] rfl).1⟩

/-- C6: a tools/call request naming a tool outside the catalog gets a
JSON-RPC success whose result is a single error content block (isError
true) whose text contains the tool name; the response carries no
JSON-RPC error object. -/
theorem unknown_tool_error_block (send_to_app : SendFn) (rid : Option Json)
    (name : String) (args : Json) (h : name ∉ toolNames) :
    (handle_call_tool send_to_app
        { jsonrpc := "2.0", id := rid, method := "tools/call",
          params := Json.obj [("name", Json.str name), ("arguments", args)] }).error
      = none
    ∧ handle_call_tool send_to_app
        { jsonrpc := "2.0", id := rid, method := "tools/call",
          params := Json.obj [("name", Json.str name), ("arguments", args)] }
      = JsonRpcResponse.success rid
          (toolResultToJson (ToolResult.error ("Unknown tool: " ++ name)))
    ∧ execute_tool send_to_app name args
        = ToolResult.error ("Unknown tool: " ++ name)
    ∧ (∃ t, (execute_tool send_to_app name args).content = [ContentBlock.text t]
        ∧ ∃ pre post, t = pre ++ name ++ post)
    ∧ (execute_tool send_to_app name args).is_error = some true := by
  simp only [toolNames, List.mem_cons, List.not_mem_nil, or_false, not_or] at h
  obtain ⟨h1, h2, h3, h4, h5, h6, h7, h8, h9, h10, h11, h12, h13, h14, h15, h16⟩ := h
  have hexec : execute_tool send_to_app name args
      = ToolResult.error ("Unknown tool: " ++ name) := by
    rw [execute_tool, if_neg h1, if_neg h2, if_neg h3, if_neg h4, if_neg h5, if_neg h6,
      if_neg h7, if_neg h8, if_neg h9, if_neg h10, if_neg h11, if_neg h12, if_neg h13,
      if_neg h14, if_neg h15, if_neg h16]
  have hcall : handle_call_tool send_to_app
      { jsonrpc := "2.0", id := rid, method := "tools/call",
        params := Json.obj [("name", Json.str name), ("arguments", args)] }
      = JsonRpcResponse.success rid
          (toolResultToJson (execute_tool send_to_app name args)) := rfl
  refine ⟨?_, ?_, hexec, ?_, ?_⟩
  · rw [hcall]
    rfl
  · rw [hcall, hexec]
  · exact ⟨"Unknown tool: " ++ name, by rw [hexec]; rfl, "Unknown tool: ", "", by simp⟩
  · rw [hexec]
    rfl

theorem unknown_tool_error_block_witness :
    ("bogus" ∉ toolNames)
    ∧ execute_tool (fun _ _ => Except.error "down") "bogus" Json.null
        = ToolResult.error "Unknown tool: bogus" := by
  have h : "bogus" ∉ toolNames := by decide
  exact ⟨h,
    (unknown_tool_error_block (fun _ _ => Except.error "down") none "bogus" Json.null
      h).2.2.1⟩

/-- C7 as frozen is false on the code: close_tab with empty arguments
fails the argument validation of the tool itself, yet the response is a
JSON-RPC success carrying an in-band error content block, not a
JSON-RPC error object with code -32602. -/
theorem per_tool_invalid_params_counterexample :
    parseCloseTabParams (Json.obj []) = Except.error "missing field tab_id"
    ∧ (handle_call_tool (fun _ _ => Except.error "no app")
        { jsonrpc := "2.0", id := some (Json.num 1), method := "tools/call",
          params := Json.obj [("name", Json.str "close_tab"),
                              ("arguments", Json.obj [])] }).error = none
    ∧ handle_call_tool (fun _ _ => Except.error "no app")
        { jsonrpc := "2.0", id := some (Json.num 1), method := "tools/call",
          params := Json.obj [("name", Json.str "close_tab"),
                              ("arguments", Json.obj [])] }
      = JsonRpcResponse.success (some (Json.num 1))
          (toolResultToJson (ToolResult.error "Invalid params: missing field tab_id")) :=
  ⟨rfl, rfl, rfl⟩

/-- C7 amended: the -32602 invalid-params JSON-RPC error is produced
exactly when the top-level tools/call params envelope (name plus
arguments) fails to deserialize into CallToolParams: an envelope
failure yields JSON-RPC error -32602, and a request whose envelope
parses gets a response carrying no JSON-RPC error object at all.
When the envelope parses but the named tool rejects the arguments,
the response is a JSON-RPC success whose result is an in-band error
content block, proved for each of the nine tools that deserialize
their arguments. -/
theorem invalid_params_amended (send_to_app : SendFn) (request : JsonRpcRequest) :
    (∀ e, parseCallToolParams request.params = Except.error e →
      handle_call_tool send_to_app request
        = JsonRpcResponse.mkError request.id (-32602) ("Invalid params: " ++ e))
    ∧ (∀ p, parseCallToolParams request.params = Except.ok p →
        (handle_call_tool send_to_app request).error = none)
    ∧ (∀ rid args e2, parseOpenTabParams args = Except.error e2 →
        handle_call_tool send_to_app (mkToolCallRequest rid "open_tab" args)
          = JsonRpcResponse.success rid
              (toolResultToJson (ToolResult.error ("Invalid params: " ++ e2))))
    ∧ (∀ rid args e2, parseCloseTabParams args = Except.error e2 →
        handle_call_tool send_to_app (mkToolCallRequest rid "close_tab" args)
          = JsonRpcResponse.success rid
              (toolResultToJson (ToolResult.error ("Invalid params: " ++ e2))))
    ∧ (∀ rid args e2, parseFocusTabParams args = Except.error e2 →
        handle_call_tool send_to_app (mkToolCallRequest rid "focus_tab" args)
          = JsonRpcResponse.success rid
              (toolResultToJson (ToolResult.error ("Invalid params: " ++ e2))))
    ∧ (∀ rid args e2, parseRunCommandParams args = Except.error e2 →
        handle_call_tool send_to_app (mkToolCallRequest rid "run_command" args)
          = JsonRpcResponse.success rid
              (toolResultToJson (ToolResult.error ("Invalid params: " ++ e2))))
    ∧ (∀ rid args e2, parseGetOutputParams args = Except.error e2 →
        handle_call_tool send_to_app (mkToolCallRequest rid "get_output" args)
          = JsonRpcResponse.success rid
              (toolResultToJson (ToolResult.error ("Invalid params: " ++ e2))))
    ∧ (∀ rid args e2, parseSetThemeParams args = Except.error e2 →
        handle_call_tool send_to_app (mkToolCallRequest rid "set_theme" args)
          = JsonRpcResponse.success rid
              (toolResultToJson (ToolResult.error ("Invalid params: " ++ e2))))
    ∧ (∀ rid args e2, parseAddSshParams args = Except.error e2 →
        handle_call_tool send_to_app (mkToolCallRequest rid "add_ssh" args)
          = JsonRpcResponse.success rid
              (toolResultToJson (ToolResult.error ("Invalid params: " ++ e2))))
    ∧ (∀ rid args e2, parseRemoveSshParams args = Except.error e2 →
        handle_call_tool send_to_app (mkToolCallRequest rid "remove_ssh" args)
          = JsonRpcResponse.success rid
              (toolResultToJson (ToolResult.error ("Invalid params: " ++ e2))))
    ∧ (∀ rid args e2, parseConnectSshParams args = Except.error e2 →
        handle_call_tool send_to_app (mkToolCallRequest rid "connect_ssh" args)
          = JsonRpcResponse.success rid
              (toolResultToJson (ToolResult.error ("Invalid params: " ++ e2)))) := by
  refine ⟨?_, ?_, ?_, ?_, ?_, ?_, ?_, ?_, ?_, ?_, ?_⟩
  · intro e h
    rw [handle_call_tool, h]
  · intro p h
    rw [handle_call_tool, h]
    rfl
  · intro rid args e2 h2
    have hcall : handle_call_tool send_to_app (mkToolCallRequest rid "open_tab" args)
        = JsonRpcResponse.success rid
            (toolResultToJson (tool_open_tab send_to_app args)) := rfl
    rw [hcall, tool_open_tab, h2]
  · intro rid args e2 h2
    have hcall : handle_call_tool send_to_app (mkToolCallRequest rid "close_tab" args)
        = JsonRpcResponse.success rid
            (toolResultToJson (tool_close_tab send_to_app args)) := rfl
    rw [hcall, tool_close_tab, h2]
  · intro rid args e2 h2
    have hcall : handle_call_tool send_to_app (mkToolCallRequest rid "focus_tab" args)
        = JsonRpcResponse.success rid
            (toolResultToJson (tool_focus_tab send_to_app args)) := rfl
    rw [hcall, tool_focus_tab, h2]
  · intro rid args e2 h2
    have hcall : handle_call_tool send_to_app (mkToolCallRequest rid "run_command" args)
        = JsonRpcResponse.success rid
            (toolResultToJson (tool_run_command send_to_app args)) := rfl
    rw [hcall, tool_run_command, h2]
  · intro rid args e2 h2
    have hcall : handle_call_tool send_to_app (mkToolCallRequest rid "get_output" args)
        = JsonRpcResponse.success rid
            (toolResultToJson (tool_get_output send_to_app args)) := rfl
    rw [hcall, tool_get_output, h2]
  · intro rid args e2 h2
    have hcall : handle_call_tool send_to_app (mkToolCallRequest rid "set_theme" args)
        = JsonRpcResponse.success rid
            (toolResultToJson (tool_set_theme send_to_app args)) := rfl
    rw [hcall, tool_set_theme, h2]
  · intro rid args e2 h2
    have hcall : handle_call_tool send_to_app (mkToolCallRequest rid "add_ssh" args)
        = JsonRpcResponse.success rid
            (toolResultToJson (tool_add_ssh send_to_app args)) := rfl
    rw [hcall, tool_add_ssh, h2]
  · intro rid args e2 h2
    have hcall : handle_call_tool send_to_app (mkToolCallRequest rid "remove_ssh" args)
        = JsonRpcResponse.success rid
            (toolResultToJson (tool_remove_ssh send_to_app args)) := rfl
    rw [hcall, tool_remove_ssh, h2]
  · intro rid args e2 h2
    have hcall : handle_call_tool send_to_app (mkToolCallRequest rid "connect_ssh" args)
        = JsonRpcResponse.success rid
            (toolResultToJson (tool_connect_ssh send_to_app args)) := rfl
    rw [hcall, tool_connect_ssh, h2]

theorem invalid_params_amended_witness :
    parseCallToolParams Json.null
      = Except.error "invalid type: expected object for CallToolParams"
    ∧ handle_call_tool (fun _ _ => Except.error "down")
        { jsonrpc := "2.0", id := none, method := "tools/call", params := Json.null }
      = JsonRpcResponse.mkError none (-32602)
          "Invalid params: invalid type: expected object for CallToolParams"
    ∧ parseCallToolParams (Json.obj [("name", Json.str "get_themes")])
      = Except.ok { name := "get_themes", arguments := Json.null }
    ∧ (handle_call_tool (fun _ _ => Except.error "down")
        { jsonrpc := "2.0", id := none, method := "tools/call",
          params := Json.obj [("name", Json.str "get_themes")] }).error = none
    ∧ parseOpenTabParams (Json.str "x")
      = Except.error "invalid type: expected object for OpenTabParams"
    ∧ handle_call_tool (fun _ _ => Except.error "down")
        (mkToolCallRequest none "open_tab" (Json.str "x"))
      = JsonRpcResponse.success none
          (toolResultToJson
            (ToolResult.error
              "Invalid params: invalid type: expected object for OpenTabParams")) := by
  have hnull := invalid_params_amended (fun _ _ => Except.error "down")
    { jsonrpc := "2.0", id := none, method := "tools/call", params := Json.null }
  have hok := invalid_params_amended (fun _ _ => Except.error "down")
    { jsonrpc := "2.0", id := none, method := "tools/call",
      params := Json.obj [("name", Json.str "get_themes")] }
  exact ⟨rfl,
    hnull.1 "invalid type: expected object for CallToolParams" rfl,
    rfl,
    hok.2.1 { name := "get_themes", arguments := Json.null } rfl,
    rfl,
    hnull.2.2.1 none (Json.str "x")
      "invalid type: expected object for OpenTabParams" rfl⟩
